import Mathlib

/-!
# Verification of the gltf-viewer draw-submission pipeline

Shallow embedding of `src/ViewerApplication.cpp` (scene traversal, per-draw
uniform submission, material binding, and device resource table construction),
with theorems settling the specification claims.

Modelling conventions:
* GL floats are modelled as exact rationals (`ℚ`).  Every value the claims
  inspect is only copied or multiplied/added along the modelled paths, never
  rounded, so exact arithmetic is faithful to the data flow.
* 4x4 matrices are functions `Fin 4 → Fin 4 → ℚ` with the mathematical
  product, matching the glm `operator*` semantics used by the source.
* Uniform writes are modelled assuming every queried uniform location is
  active (`>= 0`), per the fixed named-uniform contract the shader exposes
  (spec §6).  Under that assumption each guarded `glUniform*` call executes.
* Device handles (`glGen*` results) are opaque non-zero ids; we model them as
  consecutive naturals starting at 1.  Texture id `0` is the GL "unbound"
  texture, as in the source.
* GL calls are modelled by their observable effect on the per-draw binding
  state and by an event trace (clear, light uniforms, node visits, matrix
  uniform writes, material binds, draw calls).
-/

namespace GltfViewer

/-- 4x4 matrix over `ℚ` (the exact model of a glm `mat4`). -/
abbrev Mat4 := Fin 4 → Fin 4 → ℚ

abbrev Vec3 := ℚ × ℚ × ℚ

abbrev Vec4 := ℚ × ℚ × ℚ × ℚ

/-- Matrix product, written out over the four columns. -/
def mmul (A B : Mat4) : Mat4 := fun i j =>
  A i 0 * B 0 j + A i 1 * B 1 j + A i 2 * B 2 j + A i 3 * B 3 j

/-- Identity matrix, `glm::mat4(1)`. -/
def id4 : Mat4 := fun i j => if i = j then 1 else 0

/-- `glm::transpose`. -/
def mtrans (A : Mat4) : Mat4 := fun i j => A j i

/-- `glm::inverse`, via the adjugate formula (exact over `ℚ`). -/
def minv (A : Mat4) : Mat4 := fun i j =>
  ((Matrix.of A).det)⁻¹ * (Matrix.of A).adjugate i j

/-- `glm::vec3(V * glm::vec4(d, 0.))`: apply a matrix to a direction. -/
def transformDir (V : Mat4) (d : Vec3) : Vec3 :=
  (V 0 0 * d.1 + V 0 1 * d.2.1 + V 0 2 * d.2.2,
   V 1 0 * d.1 + V 1 1 * d.2.1 + V 1 2 * d.2.2,
   V 2 0 * d.1 + V 2 1 * d.2.1 + V 2 2 * d.2.2)

/-! ## Scene document (the subset of the tinygltf model the source reads)

Field defaults mirror the tinygltf record defaults (`index = -1`,
`occlusion strength = 1`, pbr factors `1`, emissive factor `0`). -/

structure TextureInfo where
  index : Int := -1
deriving DecidableEq

structure OcclusionTextureInfo where
  index : Int := -1
  strength : ℚ := 1
deriving DecidableEq

structure PbrMetallicRoughness where
  baseColorFactor : Vec4 := (1, 1, 1, 1)
  baseColorTexture : TextureInfo := {}
  metallicFactor : ℚ := 1
  roughnessFactor : ℚ := 1
  metallicRoughnessTexture : TextureInfo := {}
deriving DecidableEq

structure Material where
  pbrMetallicRoughness : PbrMetallicRoughness := {}
  emissiveFactor : Vec3 := (0, 0, 0)
  emissiveTexture : TextureInfo := {}
  occlusionTexture : OcclusionTextureInfo := {}
deriving DecidableEq

structure Texture where
  sampler : Int := -1
  source : Int := -1
deriving DecidableEq

structure Image where
  width : Int := 0
  height : Int := 0
  pixelType : Int := 0
deriving DecidableEq

structure Accessor where
  bufferView : Int := -1
  byteOffset : Nat := 0
  componentType : Int := 0
  count : Nat := 0
  type : Int := 0
deriving DecidableEq

structure BufferView where
  buffer : Int := -1
  byteOffset : Nat := 0
  byteLength : Nat := 0
  byteStride : Nat := 0
  target : Int := 0
deriving DecidableEq

structure Buffer where
  data : List Nat := []
deriving DecidableEq

/-- A mesh primitive.  `attributes` is the attribute map in its iteration
order (the order `(*begin(primitive.attributes))` and lookups see). -/
structure Primitive where
  attributes : List (String × Int) := []
  material : Int := -1
  indices : Int := -1
  mode : Int := 4
deriving DecidableEq

structure Mesh where
  primitives : List Primitive := []
deriving DecidableEq

/-- A scene node.  The local-transform inputs are kept abstract: either an
explicit matrix, or the three decomposed factors already expressed as
matrices (their numeric construction from translation/quaternion/scale data
is outside the claims). -/
structure Node where
  children : List Nat := []
  mesh : Int := -1
  matrixOpt : Option Mat4 := none
  translationM : Mat4 := id4
  rotationM : Mat4 := id4
  scaleM : Mat4 := id4
deriving DecidableEq

structure Scene where
  nodes : List Nat := []
deriving DecidableEq

structure Model where
  nodes : List Node := []
  meshes : List Mesh := []
  materials : List Material := []
  textures : List Texture := []
  images : List Image := []
  accessors : List Accessor := []
  bufferViews : List BufferView := []
  buffers : List Buffer := []
  scenes : List Scene := []
  defaultScene : Int := -1
deriving DecidableEq

/-! ## MaterialBinder (`bindMaterial` lambda, ViewerApplication.cpp:131-248)

The per-draw binding state: the material uniforms plus the texture object
bound at each of the fixed texture slots 0 (base color), 2 (emissive) and
3 (occlusion).  Slot 1 (metallic-roughness) is never written by the source
(lines 169-179 compute a handle but never bind it). -/

structure BindingSet where
  baseColorFactor : Vec4 := (1, 1, 1, 1)
  slot0 : Nat := 0
  metallicFactor : ℚ := 1
  roughnessFactor : ℚ := 1
  emissiveFactor : Vec3 := (0, 0, 0)
  slot2 : Nat := 0
  occlusionStrength : ℚ := 1
  slot3 : Nat := 0
deriving DecidableEq

/-- `bindMaterial` (lines 131-248), as a state transformer on the binding
state, with every uniform location assumed active.  The sequence of record
updates mirrors the sequence of `glUniform*` / `glBindTexture` calls. -/
def bindMaterial (model : Model) (textureObjects : List Nat) (whiteTexture : Nat)
    (materialIndex : Int) (s : BindingSet) : BindingSet :=
  if 0 ≤ materialIndex then
    let material := model.materials.getD materialIndex.toNat {}
    let pbr := material.pbrMetallicRoughness
    -- line 136: push the material's base color factor
    let s1 := { s with baseColorFactor := pbr.baseColorFactor }
    -- lines 144-147 ("Set Material to white"): the factor is overwritten
    -- with (1,1,1,1) whenever the base-color-texture uniform is active
    let s2 := { s1 with baseColorFactor := ((1 : ℚ), 1, 1, 1) }
    -- lines 148-158: base color texture, white fallback at both levels
    let baseTex :=
      if 0 ≤ pbr.baseColorTexture.index then
        let texture := model.textures.getD pbr.baseColorTexture.index.toNat {}
        if 0 ≤ texture.source then textureObjects.getD texture.source.toNat 0
        else whiteTexture
      else whiteTexture
    let s3 := { s2 with slot0 := baseTex }
    -- lines 161-168: metallic / roughness factors
    let s4 := { s3 with metallicFactor := pbr.metallicFactor }
    let s5 := { s4 with roughnessFactor := pbr.roughnessFactor }
    -- lines 169-179: metallic-roughness texture handle computed but never
    -- bound and no uniform written: no observable state change
    -- lines 181-185: emissive factor
    let s6 := { s5 with emissiveFactor := material.emissiveFactor }
    -- lines 186-197: emissive texture, unbound (id 0) fallback
    let emiTex :=
      if 0 ≤ material.emissiveTexture.index then
        let texture := model.textures.getD material.emissiveTexture.index.toNat {}
        if 0 ≤ texture.source then textureObjects.getD texture.source.toNat 0
        else 0
      else 0
    let s7 := { s6 with slot2 := emiTex }
    -- lines 199-202: occlusion strength from the material record
    let s8 := { s7 with occlusionStrength := material.occlusionTexture.strength }
    -- lines 203-214: occlusion texture, white fallback at both levels
    let occTex :=
      if 0 ≤ material.occlusionTexture.index then
        let texture := model.textures.getD material.occlusionTexture.index.toNat {}
        if 0 ≤ texture.source then textureObjects.getD texture.source.toNat 0
        else whiteTexture
      else whiteTexture
    { s8 with slot3 := occTex }
  else
    -- lines 216-247: the no-material branch writes the full neutral table
    let s1 := { s with baseColorFactor := ((1 : ℚ), 1, 1, 1) }
    let s2 := { s1 with slot0 := whiteTexture }
    let s3 := { s2 with metallicFactor := 1 }
    let s4 := { s3 with roughnessFactor := 1 }
    let s5 := { s4 with emissiveFactor := ((0 : ℚ), 0, 0) }
    let s6 := { s5 with slot2 := 0 }
    let s7 := { s6 with occlusionStrength := 0 }
    { s7 with slot3 := 0 }

/-! ## DeviceResourceTable

`createBufferObjects` (lines 509-525): one device buffer per document buffer,
in order, with the buffer's full byte content uploaded.  Handles are modelled
as consecutive ids starting at 1; each entry records (handle, uploaded bytes). -/

def createBufferObjectsLoop : List Buffer → Nat → List (Nat × List Nat)
  | [], _ => []
  | b :: bs, next => (next, b.data) :: createBufferObjectsLoop bs (next + 1)

def createBufferObjects (model : Model) : List (Nat × List Nat) :=
  createBufferObjectsLoop model.buffers 1

/-- `createTextureObjects` (lines 624-667): one texture object per document
texture; each loop iteration runs `assert(texture.source >= 0)` (line 640)
before the `model.images[texture.source]` lookup (line 641).  A failed
assertion aborts startup, modelled as `none`.  The sampler/filter parameter
calls are device-side effects without observable state in the claims. -/
def createTextureObjectsGo : List Texture → Nat → Option (List Nat)
  | [], _ => some []
  | t :: ts, next =>
    if 0 ≤ t.source then
      match createTextureObjectsGo ts (next + 1) with
      | some rest => some (next :: rest)
      | none => none
    else none

def createTextureObjects (model : Model) : Option (List Nat) :=
  createTextureObjectsGo model.textures 1

/-- The `model.images[texture.source]` lookup of line 641 is in range. -/
def textureSourceInRange (model : Model) (t : Texture) : Prop :=
  t.source.toNat < model.images.length

/-- `createVertexArrayObjects` (lines 527-622), range table part: for each
mesh, `begin` is the vao array size before the mesh's primitives are
appended and `count` is the mesh's primitive count (lines 541-544). -/
def vaoBuild : List Mesh → Nat → List (Nat × Nat)
  | [], _ => []
  | m :: ms, acc => (acc, m.primitives.length) :: vaoBuild ms (acc + m.primitives.length)

def meshToVA (model : Model) : List (Nat × Nat) :=
  vaoBuild model.meshes 0

/-- `createVertexArrayObjects`, flat vao-handle array part: one handle per
primitive, appended mesh by mesh in document order. -/
def vaoLoop : List Mesh → Nat → List Nat
  | [], _ => []
  | m :: ms, n =>
    (List.range m.primitives.length).map (fun k => n + k + 1)
      ++ vaoLoop ms (n + m.primitives.length)

def vertexArrayObjects (model : Model) : List Nat :=
  vaoLoop model.meshes 0

def totalPrimCount (model : Model) : Nat :=
  (model.meshes.map (fun m => m.primitives.length)).sum

/-! ## SceneTraverser -/

/-- The node's local transform: the explicit matrix when present, else
translation * rotation * scale in that multiplication order (spec §4.4). -/
def localTransform (node : Node) : Mat4 :=
  match node.matrixOpt with
  | some m => m
  | none => mmul (mmul node.translationM node.rotationM) node.scaleM

/-- Modelled from the spec: `getLocalToWorldMatrix` lives in
`utils/gltf.hpp`, which is not part of the given sources.  Spec §4.4:
"compose worldTransform = parentTransform * node.localTransform (local
transform is either the explicit matrix or composed from translation x
rotation x scale, in that multiplication order)". -/
def getLocalToWorldMatrix (node : Node) (parentMatrix : Mat4) : Mat4 :=
  mmul parentMatrix (localTransform node)

/-- A draw call issued by the primitive loop (lines 302-311). -/
inductive DrawCall where
  | elements (mode : Int) (count : Nat) (componentType : Int) (byteOffset : Nat)
  | arrays (mode : Int) (first : Nat) (count : Nat)
deriving DecidableEq

/-- The draw issued for one primitive (lines 302-311): indexed via the index
accessor when `indices >= 0`, else `glDrawArrays` sized by the accessor of
the first entry of the attribute map (`(*begin(primitive.attributes))`). -/
def drawOf (model : Model) (p : Primitive) : DrawCall :=
  if 0 ≤ p.indices then
    let accessor := model.accessors.getD p.indices.toNat {}
    let bufferView := model.bufferViews.getD accessor.bufferView.toNat {}
    DrawCall.elements p.mode accessor.count accessor.componentType
      (accessor.byteOffset + bufferView.byteOffset)
  else
    let accessorIdx := (p.attributes.headD ("", 0)).2
    let accessor := model.accessors.getD accessorIdx.toNat {}
    DrawCall.arrays p.mode 0 accessor.count

/-- Observable events of one `drawScene` call, in order. -/
inductive Ev where
  | clear
  | lightDirection (v : Vec3)
  | lightIntensity (v : Vec3)
  | applyOcclusion (b : Bool)
  | visit (node : Nat) (parent world : Mat4)
  | uniformMV (m : Mat4)
  | uniformMVP (m : Mat4)
  | uniformNormal (m : Mat4)
  | material (idx : Int)
  | draw (d : DrawCall)
deriving DecidableEq

/-- Events of one primitive iteration (lines 296-311): bind its material,
then issue its draw. -/
def primEvents (model : Model) (p : Primitive) : List Ev :=
  [Ev.material p.material, Ev.draw (drawOf model p)]

/-- Events of the mesh block of `drawNode` (lines 281-313).  Note line 288:
the value passed for the `uModelViewMatrix` slot is `modelMatrix` (the world
transform), although `modelViewMatrix` was just computed on line 283. -/
def meshEvents (model : Model) (V Pr world : Mat4) (node : Node) : List Ev :=
  if 0 ≤ node.mesh then
    let modelViewMatrix := mmul V world
    let mesh := model.meshes.getD node.mesh.toNat {}
    Ev.uniformMV world
      :: Ev.uniformMVP (mmul Pr modelViewMatrix)
      :: Ev.uniformNormal (mtrans (minv modelViewMatrix))
      :: (mesh.primitives.map (primEvents model)).flatten
  else []

/-- The recursive `drawNode` closure (lines 275-318): visit the node,
process its mesh (if any), then recurse into the children in child-list
order, passing the node's world transform as their parent transform.
`fuel` bounds the recursion depth (the node graph is a forest, so the real
recursion terminates; any fuel at least the forest height is exact). -/
def drawNode (model : Model) (V Pr : Mat4) : Nat → Nat → Mat4 → List Ev
  | 0, _, _ => []
  | fuel + 1, nodeIdx, parent =>
    let node := model.nodes.getD nodeIdx {}
    let world := getLocalToWorldMatrix node parent
    Ev.visit nodeIdx parent world
      :: (meshEvents model V Pr world node
          ++ (node.children.map (fun c => drawNode model V Pr fuel c world)).flatten)

/-- Root-node list of the default scene; empty when `defaultScene < 0`
(the guard on line 321). -/
def sceneRoots (model : Model) : List Nat :=
  if 0 ≤ model.defaultScene then
    (model.scenes.getD model.defaultScene.toNat {}).nodes
  else []

/-- The `drawScene` closure (lines 251-328): clear, push the per-frame light
uniforms, then traverse each default-scene root with the identity parent
transform.  The light-direction payload is `(0,0,1)` when the light follows
the camera, else the view-space direction before normalization (the final
`glm::normalize` divides by a float square root, which has no exact model
and is irrelevant to the claims). -/
def drawScene (model : Model) (V Pr : Mat4) (fuel : Nat)
    (lightFromCamera : Bool) (lightDirection lightIntensity : Vec3)
    (applyOcclusion : Bool) : List Ev :=
  Ev.clear
    :: Ev.lightDirection
        (if lightFromCamera then ((0 : ℚ), 0, 1) else transformDir V lightDirection)
    :: Ev.lightIntensity lightIntensity
    :: Ev.applyOcclusion applyOcclusion
    :: ((sceneRoots model).map (fun r => drawNode model V Pr fuel r id4)).flatten

/-! ## Helper lemmas -/

theorem mmul_id4_left (A : Mat4) : mmul id4 A = A := by
  funext i j
  fin_cases i <;> fin_cases j <;> simp +decide [mmul, id4]

theorem vaoBuild_length (ms : List Mesh) : ∀ acc, (vaoBuild ms acc).length = ms.length := by
  induction ms with
  | nil => intro acc; simp [vaoBuild]
  | cons m ms ih => intro acc; simp [vaoBuild, ih]

theorem vaoBuild_getD (ms : List Mesh) :
    ∀ acc i, i < ms.length →
      (vaoBuild ms acc).getD i (0, 0)
        = (acc + ((ms.take i).map (fun m => m.primitives.length)).sum,
           (ms.getD i {}).primitives.length) := by
  induction ms with
  | nil => intro acc i h; simp at h
  | cons m ms ih =>
    intro acc i h
    cases i with
    | zero => simp [vaoBuild]
    | succ j =>
      have hj : j < ms.length := by simpa using h
      simp only [vaoBuild, List.getD_cons_succ, List.take_succ_cons, List.map_cons,
        List.sum_cons]
      rw [ih (acc + m.primitives.length) j hj]
      ring_nf

theorem vaoBuild_counts_sum (ms : List Mesh) :
    ∀ acc, ((vaoBuild ms acc).map (fun r => r.2)).sum
      = (ms.map (fun m => m.primitives.length)).sum := by
  induction ms with
  | nil => intro acc; simp [vaoBuild]
  | cons m ms ih => intro acc; simp [vaoBuild, ih]

theorem vaoLoop_length (ms : List Mesh) :
    ∀ n, (vaoLoop ms n).length = (ms.map (fun m => m.primitives.length)).sum := by
  induction ms with
  | nil => intro n; simp [vaoLoop]
  | cons m ms ih => intro n; simp [vaoLoop, ih]

theorem createBufferObjectsLoop_length (bs : List Buffer) :
    ∀ next, (createBufferObjectsLoop bs next).length = bs.length := by
  induction bs with
  | nil => intro next; simp [createBufferObjectsLoop]
  | cons b bs ih => intro next; simp [createBufferObjectsLoop, ih]

theorem createBufferObjectsLoop_getD (bs : List Buffer) :
    ∀ next i, i < bs.length →
      (createBufferObjectsLoop bs next).getD i (0, [])
        = (next + i, (bs.getD i {}).data) := by
  induction bs with
  | nil => intro next i h; simp at h
  | cons b bs ih =>
    intro next i h
    cases i with
    | zero => simp [createBufferObjectsLoop]
    | succ j =>
      have hj : j < bs.length := by simpa using h
      simp only [createBufferObjectsLoop, List.getD_cons_succ]
      rw [ih (next + 1) j hj]
      ring_nf

theorem createTextureObjectsGo_isSome (ts : List Texture) :
    ∀ next, (createTextureObjectsGo ts next).isSome = true
      ↔ ∀ t ∈ ts, 0 ≤ t.source := by
  induction ts with
  | nil => intro next; simp [createTextureObjectsGo]
  | cons t ts ih =>
    intro next
    have h1 : (createTextureObjectsGo (t :: ts) next).isSome = true
        ↔ (0 ≤ t.source ∧ (createTextureObjectsGo ts (next + 1)).isSome = true) := by
      by_cases hs : 0 ≤ t.source
      · cases hgo : createTextureObjectsGo ts (next + 1) <;>
          simp [createTextureObjectsGo, hs, hgo]
      · simp [createTextureObjectsGo, hs]
    rw [h1, ih (next + 1)]
    simp

theorem createTextureObjectsGo_length (ts : List Texture) :
    ∀ next l, createTextureObjectsGo ts next = some l → l.length = ts.length := by
  induction ts with
  | nil =>
    intro next l h
    simp [createTextureObjectsGo] at h
    simp [← h]
  | cons t ts ih =>
    intro next l h
    simp only [createTextureObjectsGo] at h
    by_cases hs : 0 ≤ t.source
    · rw [if_pos hs] at h
      cases hgo : createTextureObjectsGo ts (next + 1) with
      | none => rw [hgo] at h; simp at h
      | some rest =>
        rw [hgo] at h
        simp only [Option.some.injEq] at h
        subst h
        simp [ih (next + 1) rest hgo]
    · rw [if_neg hs] at h; simp at h

theorem visit_not_mem_meshEvents (model : Model) (V Pr world : Mat4) (node : Node)
    (n : Nat) (p w : Mat4) : Ev.visit n p w ∉ meshEvents model V Pr world node := by
  unfold meshEvents
  by_cases h : 0 ≤ node.mesh <;> simp [h, primEvents]

theorem visit_world (model : Model) (V Pr : Mat4) :
    ∀ fuel start P n p w, Ev.visit n p w ∈ drawNode model V Pr fuel start P →
      w = mmul p (localTransform (model.nodes.getD n {})) := by
  intro fuel
  induction fuel with
  | zero => intro start P n p w h; simp [drawNode] at h
  | succ fuel ih =>
    intro start P n p w h
    simp only [drawNode] at h
    rcases List.mem_cons.mp h with heq | htail
    · rw [Ev.visit.injEq] at heq
      obtain ⟨h1, h2, h3⟩ := heq
      subst h1; subst h2
      rw [h3]
      rfl
    · rcases List.mem_append.mp htail with hm | hc
      · exact absurd hm (visit_not_mem_meshEvents model V Pr _ _ n p w)
      · rcases List.mem_flatten.mp hc with ⟨l, hl, hmem⟩
        rcases List.mem_map.mp hl with ⟨c, hc2, rfl⟩
        exact ih c _ n p w hmem

theorem drawNode_succ (model : Model) (V Pr : Mat4) (fuel nodeIdx : Nat) (P : Mat4) :
    drawNode model V Pr (fuel + 1) nodeIdx P =
      Ev.visit nodeIdx P (mmul P (localTransform (model.nodes.getD nodeIdx {})))
        :: (meshEvents model V Pr (mmul P (localTransform (model.nodes.getD nodeIdx {})))
              (model.nodes.getD nodeIdx {})
            ++ ((model.nodes.getD nodeIdx {}).children.map
                 (fun c => drawNode model V Pr fuel c
                   (mmul P (localTransform (model.nodes.getD nodeIdx {}))))).flatten) :=
  rfl

/-- Closed form of the material branch of `bindMaterial`. -/
theorem bindMaterial_pos (model : Model) (textureObjects : List Nat)
    (whiteTexture : Nat) (i : Int) (s : BindingSet) (h0 : 0 ≤ i) :
    bindMaterial model textureObjects whiteTexture i s =
      (let material := model.materials.getD i.toNat {}
       let pbr := material.pbrMetallicRoughness
       { baseColorFactor := ((1 : ℚ), 1, 1, 1),
         slot0 :=
           if 0 ≤ pbr.baseColorTexture.index then
             if 0 ≤ (model.textures.getD pbr.baseColorTexture.index.toNat {}).source then
               textureObjects.getD
                 (model.textures.getD pbr.baseColorTexture.index.toNat {}).source.toNat 0
             else whiteTexture
           else whiteTexture,
         metallicFactor := pbr.metallicFactor,
         roughnessFactor := pbr.roughnessFactor,
         emissiveFactor := material.emissiveFactor,
         slot2 :=
           if 0 ≤ material.emissiveTexture.index then
             if 0 ≤ (model.textures.getD material.emissiveTexture.index.toNat {}).source then
               textureObjects.getD
                 (model.textures.getD material.emissiveTexture.index.toNat {}).source.toNat 0
             else 0
           else 0,
         occlusionStrength := material.occlusionTexture.strength,
         slot3 :=
           if 0 ≤ material.occlusionTexture.index then
             if 0 ≤ (model.textures.getD material.occlusionTexture.index.toNat {}).source then
               textureObjects.getD
                 (model.textures.getD material.occlusionTexture.index.toNat {}).source.toNat 0
             else whiteTexture
           else whiteTexture } : BindingSet) := by
  unfold bindMaterial
  rw [if_pos h0]

/-- Closed form of the no-material branch of `bindMaterial`. -/
theorem bindMaterial_neg (model : Model) (textureObjects : List Nat)
    (whiteTexture : Nat) (i : Int) (s : BindingSet) (h : i < 0) :
    bindMaterial model textureObjects whiteTexture i s =
      { baseColorFactor := ((1 : ℚ), 1, 1, 1), slot0 := whiteTexture,
        metallicFactor := 1, roughnessFactor := 1,
        emissiveFactor := ((0 : ℚ), 0, 0), slot2 := 0,
        occlusionStrength := 0, slot3 := 0 } := by
  unfold bindMaterial
  rw [if_neg (Int.not_le.mpr h)]

/-! ## Claim theorems: MaterialBinder -/

/-- A material that sets only `baseColorFactor = (0.2, 0.3, 0.4, 1.0)` and
leaves every other field unset (claim C2's scenario). -/
def M2mat : Material :=
  { pbrMetallicRoughness := { baseColorFactor := ((1 : ℚ)/5, 3/10, 2/5, 1) } }

def M2 : Model := { materials := [M2mat] }

def M6 : Model := { materials := [{}] }

/-- C5: `bindMaterial` with material index -1 (no material) writes exactly
the neutral defaults table — base color factor (1,1,1,1), the neutral white
texture at slot 0, metallic 1, roughness 1, emissive factor (0,0,0), texture
id 0 at slot 2, occlusion strength 0, texture id 0 at slot 3 — for every
prior binding state, so no state leaks between consecutive draws. -/
theorem c5_no_material_defaults (model : Model) (textureObjects : List Nat)
    (whiteTexture : Nat) (s : BindingSet) :
    bindMaterial model textureObjects whiteTexture (-1) s =
      { baseColorFactor := ((1 : ℚ), 1, 1, 1), slot0 := whiteTexture,
        metallicFactor := 1, roughnessFactor := 1,
        emissiveFactor := ((0 : ℚ), 0, 0), slot2 := 0,
        occlusionStrength := 0, slot3 := 0 } := rfl

/-- Witness for C5 at a concrete prior state and white-texture id. -/
theorem c5_no_material_defaults_witness :
    bindMaterial {} [] 7 (-1) {} =
      { baseColorFactor := ((1 : ℚ), 1, 1, 1), slot0 := 7,
        metallicFactor := 1, roughnessFactor := 1,
        emissiveFactor := ((0 : ℚ), 0, 0), slot2 := 0,
        occlusionStrength := 0, slot3 := 0 } :=
  c5_no_material_defaults {} [] 7 {}

/-- C2 counterexample: for the material that sets only
`baseColorFactor = (0.2, 0.3, 0.4, 1.0)`, the binding produced by the code
has base color factor (1,1,1,1) (the "Set Material to white" block on lines
144-147 overwrites the material value), occlusion strength 1 (the record's
default strength, pushed on line 201), and the white texture at slot 3 —
not the claimed material value and documented defaults. -/
theorem c2_base_color_overwritten_cex :
    (bindMaterial M2 [] 5 0 {}).baseColorFactor = ((1 : ℚ), 1, 1, 1)
    ∧ (bindMaterial M2 [] 5 0 {}).baseColorFactor ≠ ((1 : ℚ)/5, 3/10, 2/5, 1)
    ∧ (bindMaterial M2 [] 5 0 {}).occlusionStrength = 1
    ∧ (bindMaterial M2 [] 5 0 {}).occlusionStrength ≠ 0
    ∧ (bindMaterial M2 [] 5 0 {}).slot3 = 5
    ∧ (bindMaterial M2 [] 5 0 {}).slot3 ≠ 0 := by
  have hr : bindMaterial M2 [] 5 0 {} =
      { baseColorFactor := ((1 : ℚ), 1, 1, 1), slot0 := 5,
        metallicFactor := 1, roughnessFactor := 1,
        emissiveFactor := ((0 : ℚ), 0, 0), slot2 := 0,
        occlusionStrength := 1, slot3 := 5 } := by
    rw [bindMaterial_pos M2 [] 5 0 {} (by decide)]
    simp +decide [M2, M2mat]
  refine ⟨?_, ?_, ?_, ?_, ?_, ?_⟩ <;> rw [hr]
  · norm_num [Prod.ext_iff]
  · norm_num
  · norm_num

/-- C2 amended: for every material index `i` whose material sets only
`baseColorFactor = (0.2, 0.3, 0.4, 1.0)`, `bindMaterial` produces base color
factor (1,1,1,1) (the white-material override clobbers the material value),
the neutral white texture at slot 0, metallic 1, roughness 1, emissive
factor (0,0,0), texture id 0 at slot 2, occlusion strength 1 (the record's
strength field, whose unset default is 1), and the neutral white texture at
slot 3. -/
theorem c2_resolve_only_base_color_amended (model : Model)
    (textureObjects : List Nat) (whiteTexture : Nat) (s : BindingSet) (i : Int)
    (h0 : 0 ≤ i) (h1 : model.materials.getD i.toNat {} = M2mat) :
    bindMaterial model textureObjects whiteTexture i s =
      { baseColorFactor := ((1 : ℚ), 1, 1, 1), slot0 := whiteTexture,
        metallicFactor := 1, roughnessFactor := 1,
        emissiveFactor := ((0 : ℚ), 0, 0), slot2 := 0,
        occlusionStrength := 1, slot3 := whiteTexture } := by
  rw [bindMaterial_pos model textureObjects whiteTexture i s h0]
  rw [show (model.materials.getD i.toNat {}) = M2mat from h1]
  simp +decide [M2mat]

/-- Witness for the amended C2 at material index 0 of a concrete model. -/
theorem c2_resolve_only_base_color_amended_witness :
    bindMaterial M2 [] 5 0 {} =
      { baseColorFactor := ((1 : ℚ), 1, 1, 1), slot0 := 5,
        metallicFactor := 1, roughnessFactor := 1,
        emissiveFactor := ((0 : ℚ), 0, 0), slot2 := 0,
        occlusionStrength := 1, slot3 := 5 } :=
  c2_resolve_only_base_color_amended M2 [] 5 {} 0 (by decide) rfl

/-- C6 counterexample: for a present material whose occlusion texture
reference is absent (index -1), the code binds the neutral white texture at
slot 3 (line 204 initializes the fallback to `whiteTexture`), not the
unbound texture id 0 the claim states. -/
theorem c6_occlusion_slot_cex :
    (bindMaterial M6 [] 5 0 {}).slot3 = 5
    ∧ (bindMaterial M6 [] 5 0 {}).slot3 ≠ 0 := by decide

/-- C6 amended: slot 3 receives the unbound texture id 0 only in the
no-material branch; when a material is present and its occlusion texture is
absent (negative reference index) or incomplete (negative image source), the
code binds the neutral white texture at slot 3 instead. -/
theorem c6_occlusion_slot_amended (model : Model) (textureObjects : List Nat)
    (whiteTexture : Nat) (s : BindingSet) (i : Int) :
    (i < 0 → (bindMaterial model textureObjects whiteTexture i s).slot3 = 0)
    ∧ (0 ≤ i → (model.materials.getD i.toNat {}).occlusionTexture.index < 0 →
        (bindMaterial model textureObjects whiteTexture i s).slot3 = whiteTexture)
    ∧ (0 ≤ i → 0 ≤ (model.materials.getD i.toNat {}).occlusionTexture.index →
        (model.textures.getD
          (model.materials.getD i.toNat {}).occlusionTexture.index.toNat {}).source < 0 →
        (bindMaterial model textureObjects whiteTexture i s).slot3 = whiteTexture) := by
  refine ⟨?_, ?_, ?_⟩
  · intro h
    rw [bindMaterial_neg model textureObjects whiteTexture i s h]
  · intro h0 h1
    rw [bindMaterial_pos model textureObjects whiteTexture i s h0]
    simp only [if_neg (Int.not_le.mpr h1)]
  · intro h0 h1 h2
    rw [bindMaterial_pos model textureObjects whiteTexture i s h0]
    simp only [if_pos h1, if_neg (Int.not_le.mpr h2)]

/-- Witness for the amended C6: the no-material branch leaves id 0 at
slot 3. -/
theorem c6_occlusion_slot_amended_witness :
    (bindMaterial M6 [] 9 (-1) {}).slot3 = 0 :=
  (c6_occlusion_slot_amended M6 [] 9 {} (-1)).1 (by decide)

/-! ## Claim theorems: traversal and draw submission -/

/-- A view matrix translating by -1 along z (entry (2,3) = -1). -/
def V1 : Mat4 := fun i j =>
  if i = j then 1 else if i = 2 ∧ j = 3 then -1 else 0

/-- One root node with one single-primitive mesh and identity transform. -/
def M1 : Model :=
  { nodes := [{ mesh := 0 }],
    meshes := [{ primitives := [{ attributes := [("POSITION", 0)] }] }],
    accessors := [{ count := 3 }],
    scenes := [{ nodes := [0] }],
    defaultScene := 0 }

/-- The world transform `drawNode` computes for node 0 of `M1` (identity). -/
def W1world : Mat4 := getLocalToWorldMatrix (M1.nodes.getD 0 {}) id4

/-- C1, code bug: the value pushed to the model-view uniform slot is the
world transform itself (`modelMatrix`, line 288), not
`viewMatrix * worldTransform`.  Concretely: with view matrix `V1`
(translation by -1 in z) and identity world transform, the pushed matrix
has entry (2,3) = 0 whereas `viewMatrix * worldTransform` has entry
(2,3) = -1, so the pushed value differs from the one the claim (and the
code's own `modelViewMatrix` computed on line 283) requires. -/
theorem c1_code_pushes_world_to_modelview_slot :
    (drawNode M1 V1 id4 1 0 id4).get? 1 = some (Ev.uniformMV W1world)
    ∧ W1world 2 3 = 0
    ∧ mmul V1 W1world 2 3 = -1 := by
  refine ⟨rfl, ?_, ?_⟩
  · simp +decide [W1world, getLocalToWorldMatrix, localTransform, mmul, id4, M1]
  · simp +decide [W1world, getLocalToWorldMatrix, localTransform, mmul, id4, M1, V1]

/-- Two-node forest: root 0 with child 1; node 1 is a leaf. -/
def M3 : Model :=
  { nodes := [{ children := [1] }, {}],
    scenes := [{ nodes := [0] }],
    defaultScene := 0 }

def W3a : Mat4 := getLocalToWorldMatrix (M3.nodes.getD 0 {}) id4

def W3b : Mat4 := getLocalToWorldMatrix (M3.nodes.getD 1 {}) W3a

/-- C3: (i) every node visited during traversal is visited with a world
transform equal to parentTransform * localTransform(node); (ii) every root
of the default scene is visited with the identity parent transform, so its
world transform equals its local transform; (iii) a node's trace is its own
visit followed by its mesh events, then the traces of its children in
child-list order, each with the node's world transform as parent. -/
theorem c3_world_transform_composition (model : Model) (V Pr : Mat4) :
    (∀ fuel start P n p w, Ev.visit n p w ∈ drawNode model V Pr fuel start P →
        w = mmul p (localTransform (model.nodes.getD n {})))
    ∧ (∀ fuel r lfc ld li ao, r ∈ sceneRoots model →
        Ev.visit r id4 (localTransform (model.nodes.getD r {}))
          ∈ drawScene model V Pr (fuel + 1) lfc ld li ao)
    ∧ (∀ fuel nodeIdx P,
        drawNode model V Pr (fuel + 1) nodeIdx P =
          Ev.visit nodeIdx P (mmul P (localTransform (model.nodes.getD nodeIdx {})))
            :: (meshEvents model V Pr
                  (mmul P (localTransform (model.nodes.getD nodeIdx {})))
                  (model.nodes.getD nodeIdx {})
                ++ ((model.nodes.getD nodeIdx {}).children.map
                      (fun c => drawNode model V Pr fuel c
                        (mmul P (localTransform (model.nodes.getD nodeIdx {}))))).flatten)) := by
  refine ⟨visit_world model V Pr, ?_, ?_⟩
  · intro fuel r lfc ld li ao hr
    have hhead : Ev.visit r id4 (localTransform (model.nodes.getD r {}))
        ∈ drawNode model V Pr (fuel + 1) r id4 := by
      rw [drawNode_succ, mmul_id4_left]
      exact List.Mem.head _
    have hflat : Ev.visit r id4 (localTransform (model.nodes.getD r {}))
        ∈ ((sceneRoots model).map (fun x => drawNode model V Pr (fuel + 1) x id4)).flatten :=
      List.mem_flatten.mpr ⟨_, List.mem_map_of_mem _ hr, hhead⟩
    exact List.mem_cons_of_mem _ (List.mem_cons_of_mem _
      (List.mem_cons_of_mem _ (List.mem_cons_of_mem _ hflat)))
  · intro fuel nodeIdx P
    exact drawNode_succ model V Pr fuel nodeIdx P

/-- Witness for C3 at the child node of the concrete two-node forest. -/
theorem c3_world_transform_composition_witness :
    W3b = mmul W3a (localTransform (M3.nodes.getD 1 {})) :=
  (c3_world_transform_composition M3 id4 id4).1 2 0 id4 1 W3a W3b
    (List.Mem.tail _ (List.Mem.head _))

/-- C4: a primitive with an index buffer is drawn with an indexed draw of
exactly `indexAccessor.count` indices using the index accessor's component
type; a primitive without one is drawn with a non-indexed draw of the count
of its first attribute's accessor, which equals the shared vertex count
whenever all attribute accessors agree on it. -/
theorem c4_draw_counts (model : Model) (p : Primitive) :
    (0 ≤ p.indices →
      drawOf model p = DrawCall.elements p.mode
        (model.accessors.getD p.indices.toNat {}).count
        (model.accessors.getD p.indices.toNat {}).componentType
        ((model.accessors.getD p.indices.toNat {}).byteOffset
          + (model.bufferViews.getD
              (model.accessors.getD p.indices.toNat {}).bufferView.toNat {}).byteOffset))
    ∧ (p.indices < 0 → ∀ a rest, p.attributes = a :: rest →
        drawOf model p = DrawCall.arrays p.mode 0
          (model.accessors.getD a.2.toNat {}).count)
    ∧ (p.indices < 0 → ∀ n a rest, p.attributes = a :: rest →
        (∀ b ∈ p.attributes, (model.accessors.getD b.2.toNat {}).count = n) →
        drawOf model p = DrawCall.arrays p.mode 0 n) := by
  refine ⟨?_, ?_, ?_⟩
  · intro h
    unfold drawOf
    rw [if_pos h]
  · intro h a rest hattr
    unfold drawOf
    rw [if_neg (Int.not_le.mpr h), hattr]
    rfl
  · intro h n a rest hattr hall
    have hc : (model.accessors.getD a.2.toNat {}).count = n := by
      refine hall a ?_
      rw [hattr]
      exact List.Mem.head _
    calc drawOf model p
        = DrawCall.arrays p.mode 0 (model.accessors.getD a.2.toNat {}).count := by
          unfold drawOf
          rw [if_neg (Int.not_le.mpr h), hattr]
          rfl
      _ = DrawCall.arrays p.mode 0 n := by rw [hc]

def M4 : Model := { accessors := [{ count := 3 }] }

def P4 : Primitive := { attributes := [("POSITION", 0)] }

/-- Witness for C4: a 3-vertex primitive without index buffer draws 3
vertices non-indexed. -/
theorem c4_draw_counts_witness :
    drawOf M4 P4 = DrawCall.arrays 4 0 3 :=
  (c4_draw_counts M4 P4).2.2 (by decide) 3 ("POSITION", 0) [] rfl (by decide)

/-! ## Claim theorems: resource tables -/

theorem vaoBuild_adjacent (ms : List Mesh) :
    ∀ acc i, i + 1 < ms.length →
      ((vaoBuild ms acc).getD (i + 1) (0, 0)).1
        = ((vaoBuild ms acc).getD i (0, 0)).1 + ((vaoBuild ms acc).getD i (0, 0)).2 := by
  induction ms with
  | nil => intro acc i h; simp at h
  | cons m ms ih =>
    intro acc i h
    cases i with
    | zero =>
      cases ms with
      | nil => simp at h
      | cons m2 ms2 => simp [vaoBuild]
    | succ j =>
      have hj : j + 1 < ms.length := by simpa using h
      simp only [vaoBuild, List.getD_cons_succ]
      exact ih (acc + m.primitives.length) j hj

/-- C7: the range of mesh `i` begins at the sum of the primitive counts of
meshes 0..i-1 and has length equal to mesh `i`'s primitive count; each range
starts where the previous one ends; and the range lengths sum to the length
of the flat draw-handle array, so the ranges tile it exactly. -/
theorem c7_mesh_ranges_tile (model : Model) :
    (meshToVA model).length = model.meshes.length
    ∧ (∀ i, i < model.meshes.length →
        (meshToVA model).getD i (0, 0)
          = (((model.meshes.take i).map (fun m => m.primitives.length)).sum,
             (model.meshes.getD i {}).primitives.length))
    ∧ (∀ i, i + 1 < model.meshes.length →
        ((meshToVA model).getD (i + 1) (0, 0)).1
          = ((meshToVA model).getD i (0, 0)).1 + ((meshToVA model).getD i (0, 0)).2)
    ∧ ((meshToVA model).map (fun r => r.2)).sum = (vertexArrayObjects model).length := by
  refine ⟨vaoBuild_length model.meshes 0, ?_, ?_, ?_⟩
  · intro i hi
    have h := vaoBuild_getD model.meshes 0 i hi
    simpa [meshToVA] using h
  · intro i hi
    exact vaoBuild_adjacent model.meshes 0 i hi
  · unfold meshToVA vertexArrayObjects
    rw [vaoBuild_counts_sum, vaoLoop_length]

def M7 : Model := { meshes := [{ primitives := [{}, {}] }, { primitives := [{}] }] }

/-- Witness for C7 at mesh 1 of a two-mesh document. -/
theorem c7_mesh_ranges_tile_witness :
    (meshToVA M7).getD 1 (0, 0)
      = (((M7.meshes.take 1).map (fun m => m.primitives.length)).sum,
         (M7.meshes.getD 1 {}).primitives.length) :=
  (c7_mesh_ranges_tile M7).2.1 1 (by decide)

/-- C8: the buffer-handle table has one entry per document buffer with entry
`i` holding buffer `i`'s uploaded content, the texture-handle table (when
upload succeeds) has exactly one entry per texture, the flat draw-handle
array has exactly one entry per primitive, and a document with no meshes,
no textures and no buffers yields empty tables without error. -/
theorem c8_resource_table_lengths (model : Model) :
    (createBufferObjects model).length = model.buffers.length
    ∧ (∀ i, i < model.buffers.length →
        (createBufferObjects model).getD i (0, [])
          = (1 + i, (model.buffers.getD i {}).data))
    ∧ (∀ l, createTextureObjects model = some l → l.length = model.textures.length)
    ∧ (vertexArrayObjects model).length = totalPrimCount model
    ∧ (model.meshes = [] → vertexArrayObjects model = [] ∧ meshToVA model = [])
    ∧ (model.textures = [] → createTextureObjects model = some [])
    ∧ (model.buffers = [] → createBufferObjects model = []) := by
  refine ⟨createBufferObjectsLoop_length model.buffers 1, ?_, ?_, ?_, ?_, ?_, ?_⟩
  · intro i hi
    exact createBufferObjectsLoop_getD model.buffers 1 i hi
  · intro l hl
    exact createTextureObjectsGo_length model.textures 1 l hl
  · unfold vertexArrayObjects totalPrimCount
    exact vaoLoop_length model.meshes 0
  · intro h
    unfold vertexArrayObjects meshToVA
    rw [h]
    exact ⟨rfl, rfl⟩
  · intro h
    unfold createTextureObjects
    rw [h]
    rfl
  · intro h
    unfold createBufferObjects
    rw [h]
    rfl

/-- Witness for C8: the empty document gets an empty texture table without
error. -/
theorem c8_resource_table_lengths_witness :
    createTextureObjects {} = some [] :=
  (c8_resource_table_lengths {}).2.2.2.2.2.1 rfl

def M9 : Model := { textures := [{ source := 0 }] }

/-- C9 counterexample: the assertion `texture.source >= 0` alone does not
make the `model.images[texture.source]` lookup in range: a document with one
texture of source 0 and no images passes the assertion (upload succeeds in
the model) while the lookup index 0 is out of range for the empty image
list. -/
theorem c9_assert_not_sufficient_cex :
    (createTextureObjects M9).isSome = true
    ∧ ¬ textureSourceInRange M9 { sampler := -1, source := 0 }
    ∧ ({ sampler := -1, source := 0 } : Texture) ∈ M9.textures := by
  refine ⟨rfl, ?_, by decide⟩
  unfold textureSourceInRange
  decide

/-- C9 amended: texture upload requires the asserted precondition that every
texture's source is non-negative — a document with a negative source fails
the assertion at startup instead of being uploaded with a fallback — and the
image lookup is in range for every texture given additionally the loader
guarantee that each source index is within the image-array bounds. -/
theorem c9_texture_assert_amended (model : Model) :
    ((∀ t ∈ model.textures, 0 ≤ t.source) →
        (createTextureObjects model).isSome = true)
    ∧ ((∃ t ∈ model.textures, t.source < 0) → createTextureObjects model = none)
    ∧ ((∀ t ∈ model.textures, 0 ≤ t.source ∧ t.source.toNat < model.images.length) →
        ∀ t ∈ model.textures, textureSourceInRange model t) := by
  refine ⟨?_, ?_, ?_⟩
  · intro h
    exact (createTextureObjectsGo_isSome model.textures 1).mpr h
  · intro hex
    obtain ⟨t, ht, hneg⟩ := hex
    cases hgo : createTextureObjects model with
    | none => rfl
    | some l =>
      exfalso
      have hs : (createTextureObjectsGo model.textures 1).isSome = true := by
        have hgo2 : createTextureObjectsGo model.textures 1 = some l := hgo
        rw [hgo2]
        rfl
      have hall := (createTextureObjectsGo_isSome model.textures 1).mp hs
      exact absurd (hall t ht) (Int.not_le.mpr hneg)
  · intro h t ht
    exact (h t ht).2

def M9w : Model := { textures := [{ source := 0 }], images := [{}] }

/-- Witness for the amended C9: upload succeeds when every source is
non-negative. -/
theorem c9_texture_assert_amended_witness :
    (createTextureObjects M9w).isSome = true :=
  (c9_texture_assert_amended M9w).1 (by decide)

/-- C10: when the document declares no default scene, a `drawScene` call
clears the frame and pushes the per-frame light uniforms, and produces no
node visit and no draw call — its whole event trace is exactly those four
per-frame events. -/
theorem c10_no_default_scene (model : Model) (V Pr : Mat4) (fuel : Nat)
    (lfc : Bool) (ld li : Vec3) (ao : Bool) (h : model.defaultScene < 0) :
    drawScene model V Pr fuel lfc ld li ao =
      [Ev.clear,
       Ev.lightDirection (if lfc then ((0 : ℚ), 0, 1) else transformDir V ld),
       Ev.lightIntensity li,
       Ev.applyOcclusion ao] := by
  unfold drawScene sceneRoots
  rw [if_neg (Int.not_le.mpr h)]
  rfl

/-- Witness for C10 on the empty document (defaultScene = -1). -/
theorem c10_no_default_scene_witness :
    drawScene {} id4 id4 3 true (0, 0, 0) (1, 1, 1) true =
      [Ev.clear,
       Ev.lightDirection (if true then ((0 : ℚ), 0, 1) else transformDir id4 (0, 0, 0)),
       Ev.lightIntensity (1, 1, 1),
       Ev.applyOcclusion true] :=
  c10_no_default_scene {} id4 id4 3 true (0, 0, 0) (1, 1, 1) true (by decide)

end GltfViewer
